import Mathlib

/-!
Shallow embedding of `src/app/src/frontend/map/map.tsx` from the
colouring-cities/colouring-turkiye repository: the `ColouringMap` component's
state hooks (`dataLayers`, `position`, `zoom`), its callbacks (`handleLocate`,
`handleClick`, `layerSwitch`) and its declarative render output (map layer
stack and overlay chrome), together with the `MapBackgroundColor` effect.
-/

namespace ColouringMap

/-- A building entity as returned by the point-lookup API
(`/api/buildings/locate`); only its identity matters here. -/
structure Building where
  id : Int
deriving DecidableEq, Repr

/-- The light/dark display theme (`MapTheme` from the map configuration),
supplied by the display-preferences context as `darkLightTheme`. -/
inductive MapTheme
  | light
  | dark
deriving DecidableEq, Repr

/-- Enablement state of the data-layer group (`LayerEnablementState` from the
map configuration): the two string values `'enabled'` and `'disabled'`. -/
inductive LayerEnablementState
  | enabled
  | disabled
deriving DecidableEq, Repr

/-- The `mode` prop of `ColouringMap`: `'basic' | 'view' | 'edit' | 'multi-edit'`. -/
inductive Mode
  | basic
  | view
  | edit
  | multiEdit
deriving DecidableEq, Repr

/-- A building map tileset identifier (`BuildingMapTileset` from the tileserver
configuration): a string-typed colour-scale name. -/
abbrev BuildingMapTileset := String

/-- The component-owned state of `ColouringMap`: the `useState` hooks
`dataLayers`, `position` and `zoom`.  Coordinates and zoom are modelled as
rationals (exact stand-ins for the JavaScript numbers, on which the component
performs no arithmetic). -/
structure ControllerState where
  dataLayers : LayerEnablementState
  position : ℚ × ℚ
  zoom : ℚ
deriving DecidableEq, Repr

/-- `handleLocate(lat, lng, zoom)`: calls `setPosition([lat, lng])` and
`setZoom(zoom)`; no validation or clamping is performed. -/
def handleLocate (s : ControllerState) (lat lng zoom : ℚ) : ControllerState :=
  { s with position := (lat, lng), zoom := zoom }

/-- `layerSwitch(e)`: sets `dataLayers` to
`(dataLayers === 'enabled') ? 'disabled' : 'enabled'`. -/
def layerSwitch (s : ControllerState) : ControllerState :=
  { s with dataLayers :=
      if s.dataLayers = LayerEnablementState.enabled
      then LayerEnablementState.disabled
      else LayerEnablementState.enabled }

/-- The value `data?.[0]` computed inside `handleClick`: the first element of
the lookup result, or `none` when the response is null/undefined or the
returned sequence is empty. -/
def clickResult (data : Option (List Building)) : Option Building :=
  data.bind List.head?

/-- Observable outcome of one run of `handleClick`: the controller state
afterwards and the list of arguments `onBuildingAction` was invoked with,
in order (`none` models a call with the JavaScript value `undefined`). -/
structure ClickOutcome where
  state : ControllerState
  callbackCalls : List (Option Building)
deriving DecidableEq, Repr

/-- `handleClick(e)`: awaits the point lookup and then runs
`onBuildingAction(data?.[0])` unconditionally; it updates none of the
component state hooks. -/
def handleClick (s : ControllerState) (data : Option (List Building)) : ClickOutcome :=
  { state := s, callbackCalls := [clickResult data] }

/-- JavaScript truthiness of the optional number `selectedBuildingId`
(as used in `selectedBuildingId && <BuildingHighlightLayer .../>`):
truthy exactly when defined and nonzero. -/
def numberTruthy : Option Int → Bool
  | none => false
  | some n => n ≠ 0

/-- JavaScript truthiness of the optional string `mapColourScale`
(as used in `mapColourScale && <BuildingDataLayer .../>`):
truthy exactly when defined and non-empty. -/
def scaleTruthy : Option BuildingMapTileset → Bool
  | none => false
  | some s => s ≠ ""

/-- The props of `ColouringMap` relevant to rendering, together with the
externally-owned theme read from the display-preferences context. -/
structure RenderProps where
  selectedBuildingId : Option Int
  mode : Mode
  revisionId : String
  mapColourScale : Option BuildingMapTileset
  theme : MapTheme
deriving DecidableEq, Repr

/-- A map layer element rendered inside the `MapContainer`, listed in the
document order of the JSX. -/
inductive Layer
  | cityBase (theme : MapTheme)
  | buildingBase (theme : MapTheme)
  | conservationAreaBoundary
  | buildingData (tileset : BuildingMapTileset) (revisionId : String)
  | cityBoundary
  | historicData
  | boroughBoundary
  | parcelBoundary
  | floodBoundary
  | vistaBoundary
  | housingBoundary
  | creativeBoundary
  | buildingNumbers (revisionId : String)
  | buildingHighlight (selectedBuildingId : Int) (baseTileset : Option BuildingMapTileset)
deriving DecidableEq, Repr

/-- The conditional building-data tier:
`mapColourScale && <BuildingDataLayer tileset={mapColourScale} revisionId={revisionId}/>`. -/
def buildingDataTier (p : RenderProps) : List Layer :=
  match p.mapColourScale with
  | some ts => if ts ≠ "" then [Layer.buildingData ts p.revisionId] else []
  | none => []

/-- The conditional highlight element of the foreground overlay pane:
`selectedBuildingId && <BuildingHighlightLayer selectedBuildingId={...} baseTileset={mapColourScale}/>`. -/
def highlightTier (p : RenderProps) : List Layer :=
  match p.selectedBuildingId with
  | some n => if n ≠ 0 then [Layer.buildingHighlight n p.mapColourScale] else []
  | none => []

/-- The ordered stack of map layers produced by the `ColouringMap` JSX: base
pane, behind-buildings overlay pane, conditional building-data tier, and the
foreground overlay pane with its conditional highlight layer. -/
def renderLayers (p : RenderProps) : List Layer :=
  [Layer.cityBase p.theme, Layer.buildingBase p.theme]
    ++ [Layer.conservationAreaBoundary]
    ++ buildingDataTier p
    ++ [Layer.cityBoundary, Layer.historicData, Layer.boroughBoundary,
        Layer.parcelBoundary, Layer.floodBoundary, Layer.vistaBoundary,
        Layer.housingBoundary, Layer.creativeBoundary,
        Layer.buildingNumbers p.revisionId]
    ++ highlightTier p

/-- An overlay chrome widget rendered next to the map canvas. -/
inductive OverlayWidget
  | legend (scale : Option BuildingMapTileset)
  | themeSwitcher (theme : MapTheme)
  | dataLayerSwitcher (display : LayerEnablementState)
  | boroughSwitcher
  | parcelSwitcher
  | floodSwitcher
  | conservationAreaSwitcher
  | historicDataSwitcher
  | vistaSwitcher
  | housingSwitcher
  | creativeSwitcher
  | searchBox
deriving DecidableEq, Repr

/-- The eight per-domain boundary switcher widgets rendered inside the
`dataLayers == "enabled"` conditional, in document order. -/
def boundarySwitchers : List OverlayWidget :=
  [OverlayWidget.boroughSwitcher, OverlayWidget.parcelSwitcher,
   OverlayWidget.floodSwitcher, OverlayWidget.conservationAreaSwitcher,
   OverlayWidget.historicDataSwitcher, OverlayWidget.vistaSwitcher,
   OverlayWidget.housingSwitcher, OverlayWidget.creativeSwitcher]

/-- The overlay chrome produced by the `ColouringMap` JSX: empty when
`mode === 'basic'`, otherwise legend, theme switcher, data-layer switcher,
the boundary switchers when the layer group is enabled, and the search box. -/
def renderOverlay (p : RenderProps) (s : ControllerState) : List OverlayWidget :=
  if p.mode = Mode.basic then []
  else
    [OverlayWidget.legend p.mapColourScale,
     OverlayWidget.themeSwitcher p.theme,
     OverlayWidget.dataLayerSwitcher s.dataLayers]
      ++ (if s.dataLayers = LayerEnablementState.enabled then boundarySwitchers else [])
      ++ [OverlayWidget.searchBox]

/-- The `MapBackgroundColor` effect: assigns `mapBackgroundColor[theme]` to the
container's background.  The lookup table `mapBackgroundColor` lives in the map
configuration and is taken as a parameter; the component reads nothing but the
theme. -/
def appliedBackgroundColor (mapBackgroundColor : MapTheme → String)
    (p : RenderProps) (_s : ControllerState) : String :=
  mapBackgroundColor p.theme

/-- The lower zoom bound passed to `MapContainer` (`minZoom={9}`). -/
def minZoom : ℚ := 9

/-- The upper zoom bound passed to `MapContainer` (`maxZoom={18}`). -/
def maxZoom : ℚ := 18

/-- The viewport-zoom invariant claimed by the spec: the stored zoom lies
within `[minZoom, maxZoom]`. -/
def zoomInRange (s : ControllerState) : Prop :=
  minZoom ≤ s.zoom ∧ s.zoom ≤ maxZoom

instance (s : ControllerState) : Decidable (zoomInRange s) := by
  unfold zoomInRange; infer_instance

/-- Layer predicate selecting the building highlight layer. -/
def isHighlight : Layer → Bool
  | Layer.buildingHighlight _ _ => true
  | _ => false

/-- Layer predicate selecting the building-data layer. -/
def isBuildingData : Layer → Bool
  | Layer.buildingData _ _ => true
  | _ => false

/-- A sample controller state used for concrete evaluations. -/
def s0 : ControllerState :=
  { dataLayers := LayerEnablementState.disabled, position := (41, 29), zoom := 10 }

/-- Sample render props with a defined but zero building id. -/
def propsZeroId : RenderProps :=
  { selectedBuildingId := some 0, mode := Mode.view, revisionId := "r1",
    mapColourScale := some "scale1", theme := MapTheme.light }

/-- Sample render props with building id 42 selected. -/
def propsId42 : RenderProps :=
  { selectedBuildingId := some 42, mode := Mode.view, revisionId := "r1",
    mapColourScale := some "scale1", theme := MapTheme.light }

/-- C4: for every lat, lng and zoom, from any controller state, `handleLocate`
leaves the viewport state exactly at position `(lat, lng)` and zoom `zoom`. -/
theorem C4_locate_sets_viewport (s : ControllerState) (lat lng zoom : ℚ) :
    (handleLocate s lat lng zoom).position = (lat, lng) ∧
    (handleLocate s lat lng zoom).zoom = zoom :=
  ⟨rfl, rfl⟩

/-- C5: one application of the layer toggle maps each enablement state to the
other value, and two successive applications restore the whole state. -/
theorem C5_toggle_involution (s : ControllerState) :
    layerSwitch (layerSwitch s) = s ∧
    (layerSwitch s).dataLayers ≠ s.dataLayers := by
  cases s with
  | mk d pos z => cases d <;> simp [layerSwitch]

/-- C5 witness: the toggle pair at the sample state. -/
theorem C5_toggle_involution_witness :
    layerSwitch (layerSwitch s0) = s0 ∧
    (layerSwitch s0).dataLayers ≠ s0.dataLayers :=
  C5_toggle_involution s0

/-- C10: frame conditions — `handleLocate` leaves the layer-enablement state
unchanged, `layerSwitch` leaves position and zoom unchanged, and `handleClick`
leaves the whole controller state unchanged regardless of the lookup outcome. -/
theorem C10_frame_conditions (s : ControllerState) (lat lng z : ℚ)
    (data : Option (List Building)) :
    (handleLocate s lat lng z).dataLayers = s.dataLayers ∧
    (layerSwitch s).position = s.position ∧
    (layerSwitch s).zoom = s.zoom ∧
    (handleClick s data).state = s :=
  ⟨rfl, rfl, rfl, rfl⟩

/-- C9: the applied map background colour is a pure function of the theme via
the lookup table — any two prop/state combinations with the same theme yield
the same colour, independent of all other prop and controller state. -/
theorem C9_background_pure_in_theme (mapBackgroundColor : MapTheme → String)
    (p₁ p₂ : RenderProps) (s₁ s₂ : ControllerState) (h : p₁.theme = p₂.theme) :
    appliedBackgroundColor mapBackgroundColor p₁ s₁ =
      appliedBackgroundColor mapBackgroundColor p₂ s₂ := by
  simp [appliedBackgroundColor, h]

/-- C9 witness: two prop/state pairs differing in everything but the theme get
the same background colour under a concrete two-entry lookup table. -/
theorem C9_background_pure_in_theme_witness :
    appliedBackgroundColor
        (fun t => match t with | MapTheme.light => "sky" | MapTheme.dark => "ink")
        propsZeroId s0 =
      appliedBackgroundColor
        (fun t => match t with | MapTheme.light => "sky" | MapTheme.dark => "ink")
        propsId42 (layerSwitch s0) :=
  C9_background_pure_in_theme _ propsZeroId propsId42 s0 (layerSwitch s0) rfl

/-- C6: when the mode is `'basic'`, no overlay chrome at all is rendered,
regardless of all other prop and controller state. -/
theorem C6_basic_renders_no_chrome (p : RenderProps) (s : ControllerState)
    (h : p.mode = Mode.basic) :
    renderOverlay p s = [] := by
  simp [renderOverlay, h]

/-- C6 witness: basic mode with enabled layers and a selection still renders
no overlay chrome. -/
theorem C6_basic_renders_no_chrome_witness :
    renderOverlay { propsId42 with mode := Mode.basic }
      { s0 with dataLayers := LayerEnablementState.enabled } = [] :=
  C6_basic_renders_no_chrome _ _ rfl

/-- C7: each per-domain boundary switcher widget is rendered if and only if
the mode is not `'basic'` and the layer group is `'enabled'`; in particular
none of them renders while the group is disabled, whatever the mode. -/
theorem C7_boundary_switchers_iff (p : RenderProps) (s : ControllerState)
    (w : OverlayWidget) (hw : w ∈ boundarySwitchers) :
    w ∈ renderOverlay p s ↔
      (p.mode ≠ Mode.basic ∧ s.dataLayers = LayerEnablementState.enabled) := by
  by_cases hm : p.mode = Mode.basic
  · simp [renderOverlay, hm]
  · cases hd : s.dataLayers with
    | enabled => fin_cases hw <;> simp [renderOverlay, hm, hd, boundarySwitchers]
    | disabled => fin_cases hw <;> simp [renderOverlay, hm, hd, boundarySwitchers]

/-- C7 witness: the borough switcher renders exactly when the layer group is
enabled in view mode — true at an enabled sample state. -/
theorem C7_boundary_switchers_iff_witness :
    OverlayWidget.boroughSwitcher ∈
      renderOverlay propsId42 { s0 with dataLayers := LayerEnablementState.enabled } :=
  (C7_boundary_switchers_iff propsId42
      { s0 with dataLayers := LayerEnablementState.enabled }
      OverlayWidget.boroughSwitcher (by decide)).mpr
    ⟨by decide, rfl⟩

/-- C8: when every supplied colour-scale value is a valid (non-empty) tileset
name, the building-data layer is rendered exactly when `mapColourScale` is
set, and then it is unique and parameterized by that tileset and the current
revision id. -/
theorem C8_building_data_iff_scale (p : RenderProps)
    (hvalid : ∀ ts, p.mapColourScale = some ts → ts ≠ "") :
    (renderLayers p).countP isBuildingData =
      (if p.mapColourScale.isSome then 1 else 0) ∧
    (∀ ts, p.mapColourScale = some ts →
      Layer.buildingData ts p.revisionId ∈ renderLayers p) := by
  constructor
  · cases hms : p.mapColourScale with
    | none =>
        simp [renderLayers, buildingDataTier, highlightTier, hms, isBuildingData]
        cases p.selectedBuildingId with
        | none => simp
        | some n =>
            by_cases hn : n = 0 <;> simp [hn, isBuildingData]
    | some ts =>
        have hts : ts ≠ "" := hvalid ts hms
        simp [renderLayers, buildingDataTier, highlightTier, hms, hts, isBuildingData]
        cases p.selectedBuildingId with
        | none => simp
        | some n =>
            by_cases hn : n = 0 <;> simp [hn, isBuildingData]
  · intro ts hms
    simp [renderLayers, buildingDataTier, hms, hvalid ts hms]

/-- C8 witness: with colour scale `"scale1"` and revision `"r1"`, exactly one
building-data layer is rendered, parameterized by both. -/
theorem C8_building_data_iff_scale_witness :
    (renderLayers propsId42).countP isBuildingData = 1 ∧
    Layer.buildingData "scale1" "r1" ∈ renderLayers propsId42 := by
  have h := C8_building_data_iff_scale propsId42 (by intro ts hts; cases hts; decide)
  exact ⟨h.1, h.2 "scale1" rfl⟩

/-- C1 counterexample: when the point lookup resolves to the empty sequence,
the click handler still invokes the action callback — once, with the
JavaScript value `undefined` — contradicting the claim that the callback is
not invoked at all. -/
theorem C1_counterexample :
    (handleClick s0 (some [])).callbackCalls ≠ [] ∧
    (handleClick s0 (some [])).callbackCalls = [none] := by
  constructor <;> decide

/-- C1 (amended): on every click the handler invokes the action callback
exactly once, with `data?.[0]` — the first entity when the result contains at
least one, and `undefined` when the result is empty or null. -/
theorem C1_callback_always_invoked_with_head (s : ControllerState)
    (data : Option (List Building)) :
    (handleClick s data).callbackCalls = [clickResult data] ∧
    (∀ b rest, data = some (b :: rest) → clickResult data = some b) ∧
    (data = some [] → clickResult data = none) ∧
    (data = none → clickResult data = none) := by
  refine ⟨rfl, ?_, ?_, ?_⟩
  · rintro b rest rfl; rfl
  · rintro rfl; rfl
  · rintro rfl; rfl

/-- C1 witness: a lookup result `[{id: 42}]` makes the handler call the
callback exactly once, with building 42. -/
theorem C1_callback_always_invoked_with_head_witness :
    (handleClick s0 (some [Building.mk 42])).callbackCalls =
      [some (Building.mk 42)] := by
  have h := C1_callback_always_invoked_with_head s0 (some [Building.mk 42])
  rw [h.1, h.2.1 (Building.mk 42) [] rfl]

/-- C2 counterexample: with `selectedBuildingId` defined and equal to 0, the
highlight layer is absent, because the JSX guards it with JavaScript
truthiness of the number, not with definedness. -/
theorem C2_counterexample :
    propsZeroId.selectedBuildingId = some 0 ∧
    (renderLayers propsZeroId).countP isHighlight = 0 := by
  constructor <;> decide

/-- C2 (amended): the highlight layer is present exactly when
`selectedBuildingId` is truthy — defined and nonzero; it is then unique and
parameterized by that id and the current colour scale. -/
theorem C2_highlight_iff_truthy_id (p : RenderProps) :
    (renderLayers p).countP isHighlight =
      (if numberTruthy p.selectedBuildingId then 1 else 0) ∧
    (∀ n, p.selectedBuildingId = some n → n ≠ 0 →
      Layer.buildingHighlight n p.mapColourScale ∈ renderLayers p) := by
  constructor
  · have hdata : (buildingDataTier p).countP isHighlight = 0 := by
      unfold buildingDataTier
      cases p.mapColourScale with
      | none => rfl
      | some ts => by_cases hts : ts = "" <;> simp [hts, isHighlight]
    cases hsel : p.selectedBuildingId with
    | none =>
        simp [renderLayers, highlightTier, hsel, numberTruthy, isHighlight,
          List.countP_append, hdata]
    | some n =>
        by_cases hn : n = 0 <;>
          simp [renderLayers, highlightTier, hsel, hn, numberTruthy, isHighlight,
            List.countP_append, hdata]
  · intro n hsel hn
    simp [renderLayers, highlightTier, hsel, hn]

/-- C2 witness: with `selectedBuildingId = 42`, exactly one highlight layer is
rendered, parameterized by 42 and the current colour scale. -/
theorem C2_highlight_iff_truthy_id_witness :
    (renderLayers propsId42).countP isHighlight = 1 ∧
    Layer.buildingHighlight 42 propsId42.mapColourScale ∈ renderLayers propsId42 := by
  have h := C2_highlight_iff_truthy_id propsId42
  exact ⟨h.1, h.2 42 rfl (by decide)⟩

/-- C3 counterexample: from a state with zoom 10 (inside `[9, 18]`), calling
`handleLocate` with zoom argument 100 stores zoom 100, outside the range: the
invariant is not preserved by `locate` for arbitrary zoom arguments. -/
theorem C3_counterexample :
    zoomInRange s0 ∧
    (handleLocate s0 0 0 100).zoom = 100 ∧
    ¬ zoomInRange (handleLocate s0 0 0 100) := by
  refine ⟨?_, rfl, ?_⟩ <;> decide

/-- C3 (amended): the zoom range `[9, 18]` is preserved by the layer toggle
and by clicks, and by `locate` exactly when its zoom argument already lies in
the range — `locate` stores the argument without validation. -/
theorem C3_zoom_range_preservation (s : ControllerState) (h : zoomInRange s) :
    zoomInRange (layerSwitch s) ∧
    (∀ data, zoomInRange (handleClick s data).state) ∧
    (∀ lat lng z, minZoom ≤ z → z ≤ maxZoom →
      zoomInRange (handleLocate s lat lng z)) ∧
    (∀ lat lng z, (handleLocate s lat lng z).zoom = z) := by
  refine ⟨h, fun _ => h, ?_, fun _ _ _ => rfl⟩
  intro lat lng z h₁ h₂
  exact ⟨h₁, h₂⟩

/-- C3 witness: from the sample state, the toggle, a click and a locate with
zoom 14 all keep the zoom inside `[9, 18]`. -/
theorem C3_zoom_range_preservation_witness :
    zoomInRange (layerSwitch s0) ∧
    zoomInRange (handleClick s0 (some [])).state ∧
    zoomInRange (handleLocate s0 (103/2) (-1/10) 14) := by
  have h := C3_zoom_range_preservation s0 (by decide)
  exact ⟨h.1, h.2.1 (some []), h.2.2.1 (103/2) (-1/10) 14 (by decide) (by decide)⟩

end ColouringMap
